import Mathlib

/-
  Verification development for a small web-application slice:
  authenticated device-history route handlers (list / register / remove)
  backed by an external relational store, plus a React error-boundary
  component.  The handlers are embedded shallowly: the external store is a
  piece of state threaded through each request, the auth gate's resolved
  user, the header values, the user-agent parser output, the generated
  UUID and the clock are inputs of the request environment, and a failure
  schedule says which backend calls fail (the store may fail any call;
  the handlers inspect the returned error exactly where the source does).
-/

namespace DeviceApp

/-- A JavaScript error value as the handlers see it: `message` is the
`.message` property, `none` when absent (`error.message` is `undefined`). -/
structure JsErr where
  message : Option String
deriving DecidableEq

/-- JS `m || fb` on an error message: falls back when the message is
absent (`undefined`) or the empty string (both falsy). -/
def jsOrElse (m : Option String) (fb : String) : String :=
  match m with
  | some s => if s = ("") then fb else s
  | none => fb

/-- JS `a || b` on two nullable header strings: `a` wins unless it is
`null` or `""` (falsy). -/
def jsOrOpt (a b : Option String) : Option String :=
  match a with
  | some s => if s = ("") then b else some s
  | none => b

/-- JS template-literal interpolation of a possibly-undefined string:
`undefined` prints as the literal text "undefined". -/
def jsShow : Option String → String
  | some s => s
  | none => "undefined"

/-- The TypeError raised when a handler reads `.id` off an absent user. -/
def nullDerefErr : JsErr :=
  { message := some ("Cannot read properties of null") }

/-- One row of the `device_history` table. -/
structure DeviceRecord where
  user_id : String
  device_id : String
  device_name : String
  browser : Option String
  os : Option String
  ip_address : Option String
  is_current : Bool
  last_active : Nat
deriving DecidableEq

/-- One row of the `security_logs` table (the `details` JSON payload is
flattened into its two fields). -/
structure SecurityLog where
  user_id : String
  type : String
  details_device_id : String
  details_timestamp : Nat
  ip_address : Option String
deriving DecidableEq

/-- Trace entry: one call issued against the external store. -/
inductive DbCall where
  | selectDevices (uid : String)
  | updateClear (uid : String)
  | insertDevice (r : DeviceRecord)
  | insertLog (entry : SecurityLog)
  | deleteDevice (uid did : String)
deriving DecidableEq

/-- The external store: the two tables plus the trace of calls issued. -/
structure DB where
  device_history : List DeviceRecord
  security_logs : List SecurityLog
  calls : List DbCall
deriving DecidableEq

/-- The user resolved by the auth gate. -/
structure User where
  id : String
deriving DecidableEq

/-- Output of the user-agent parsing utility (`result.browser.name` and
`result.os.name`, each possibly `undefined`). -/
structure UAResult where
  browserName : Option String
  osName : Option String
deriving DecidableEq

/-- Failure schedule for one request: which backend calls fail, and with
which error.  `none` means the call succeeds. -/
structure Schedule where
  selectErr : Option JsErr
  updateErr : Option JsErr
  insertDeviceErr : Option JsErr
  insertLogErr : Option JsErr
  deleteErr : Option JsErr
deriving DecidableEq

instance : DecidableEq (Except JsErr String) := fun a b =>
  match a, b with
  | Except.error x, Except.error y =>
    if h : x = y then Decidable.isTrue (congrArg Except.error h)
    else Decidable.isFalse (fun hc => h (Except.error.inj hc))
  | Except.ok x, Except.ok y =>
    if h : x = y then Decidable.isTrue (congrArg Except.ok h)
    else Decidable.isFalse (fun hc => h (Except.ok.inj hc))
  | Except.error _, Except.ok _ => Decidable.isFalse (fun hc => Except.noConfusion hc)
  | Except.ok _, Except.error _ => Decidable.isFalse (fun hc => Except.noConfusion hc)

/-- Everything one request reads from its surroundings: the auth gate's
resolved user, the raw headers, the parser's output on the user-agent
header, the freshly generated UUID, the clock, the parsed DELETE body
(`Except.error` when `req.json()` throws), and the failure schedule. -/
structure Env where
  user : Option User
  userAgent : Option String
  xForwardedFor : Option String
  xRealIp : Option String
  uaResult : UAResult
  deviceId : String
  now : Nat
  bodyDeviceId : Except JsErr String
  sched : Schedule
deriving DecidableEq

/-- JSON response bodies the handlers produce. -/
inductive RespBody where
  | errorMsg (msg : String)
  | deviceList (devices : List DeviceRecord)
  | successDevice (deviceId : String)
  | successOnly
deriving DecidableEq

/-- An HTTP response: status code and JSON body. -/
structure Response where
  status : Nat
  body : RespBody
deriving DecidableEq

/-- The row transformation of `update({ is_current: false }).eq(user_id)`. -/
def clearFor (uid : String) (r : DeviceRecord) : DeviceRecord :=
  if r.user_id = uid then { r with is_current := false } else r

/-- Rows kept by `delete().eq(user_id).eq(device_id)`. -/
def keepAfterDelete (uid did : String) (r : DeviceRecord) : Bool :=
  decide (¬(r.user_id = uid ∧ r.device_id = did))

/-- Insert a record into a list kept sorted by `last_active` descending. -/
def insertByLastActive (r : DeviceRecord) : List DeviceRecord → List DeviceRecord
  | [] => [r]
  | x :: xs =>
    if r.last_active ≤ x.last_active then x :: insertByLastActive r xs
    else r :: x :: xs

/-- Order rows by `last_active` descending (`order(last_active, desc)`). -/
def orderDesc (l : List DeviceRecord) : List DeviceRecord :=
  l.foldr insertByLastActive []

/-- `select(*).eq(user_id).order(last_active, desc)`: records the call,
then either fails as scheduled or returns the user's rows ordered by
`last_active` descending. -/
def sbSelect (uid : String) (err : Option JsErr) (db : DB) :
    DB × Except JsErr (List DeviceRecord) :=
  let db1 : DB := { db with calls := db.calls ++ [DbCall.selectDevices uid] }
  match err with
  | some e => (db1, Except.error e)
  | none =>
    (db1, Except.ok (orderDesc (db1.device_history.filter (fun r => decide (r.user_id = uid)))))

/-- `update({ is_current: false }).eq(user_id)`: records the call, then
either fails as scheduled (table unchanged) or clears the flag on the
user's rows.  The error is returned, not raised. -/
def sbUpdateClear (uid : String) (err : Option JsErr) (db : DB) : DB × Option JsErr :=
  let db1 : DB := { db with calls := db.calls ++ [DbCall.updateClear uid] }
  match err with
  | some e => (db1, some e)
  | none =>
    ({ db1 with device_history := db1.device_history.map (clearFor uid) }, none)

/-- `insert(deviceInfo)` into `device_history`: records the call, then
either fails as scheduled or appends the row. -/
def sbInsertDevice (r : DeviceRecord) (err : Option JsErr) (db : DB) : DB × Option JsErr :=
  let db1 : DB := { db with calls := db.calls ++ [DbCall.insertDevice r] }
  match err with
  | some e => (db1, some e)
  | none =>
    ({ db1 with device_history := db1.device_history ++ [r] }, none)

/-- `insert(entry)` into `security_logs`: records the call, then either
fails as scheduled or appends the row. -/
def sbInsertLog (entry : SecurityLog) (err : Option JsErr) (db : DB) : DB × Option JsErr :=
  let db1 : DB := { db with calls := db.calls ++ [DbCall.insertLog entry] }
  match err with
  | some e => (db1, some e)
  | none =>
    ({ db1 with security_logs := db1.security_logs ++ [entry] }, none)

/-- `delete().eq(user_id).eq(device_id)`: records the call, then either
fails as scheduled or removes the matching rows. -/
def sbDelete (uid did : String) (err : Option JsErr) (db : DB) : DB × Option JsErr :=
  let db1 : DB := { db with calls := db.calls ++ [DbCall.deleteDevice uid did] }
  match err with
  | some e => (db1, some e)
  | none =>
    ({ db1 with device_history := db1.device_history.filter (keepAfterDelete uid did) }, none)

/-- `headers.get(x-forwarded-for) || headers.get(x-real-ip)`. -/
def ipAddressOf (env : Env) : Option String :=
  jsOrOpt env.xForwardedFor env.xRealIp

/-- The `deviceInfo` object POST builds: the device name interpolates the
parser's browser and OS names into the template `<browser> on <os>`. -/
def deviceInfoOf (env : Env) (u : User) : DeviceRecord :=
  { user_id := u.id
    device_id := env.deviceId
    device_name := jsShow env.uaResult.browserName ++ (" on ") ++ jsShow env.uaResult.osName
    browser := env.uaResult.browserName
    os := env.uaResult.osName
    ip_address := ipAddressOf env
    is_current := true
    last_active := env.now }

/-- The audit entry POST writes to `security_logs`. -/
def newDeviceLog (env : Env) (u : User) : SecurityLog :=
  { user_id := u.id
    type := "new_device_added"
    details_device_id := env.deviceId
    details_timestamp := env.now
    ip_address := ipAddressOf env }

/-- The audit entry DELETE writes to `security_logs`. -/
def removedLog (env : Env) (u : User) (did : String) : SecurityLog :=
  { user_id := u.id
    type := "device_removed"
    details_device_id := did
    details_timestamp := env.now
    ip_address := ipAddressOf env }

/-- The try-block of GET (reached only with a resolved user): select the
user's rows; a returned error is thrown (`if (error) throw error`). -/
def GETtry (u : User) (env : Env) (db : DB) : DB × Except JsErr Response :=
  match sbSelect u.id env.sched.selectErr db with
  | (db1, Except.error e) => (db1, Except.error e)
  | (db1, Except.ok ds) => (db1, Except.ok ⟨200, RespBody.deviceList ds⟩)

/-- GET: 401 when the auth gate resolved no user (checked before the try
block); otherwise the try block with its catch converting any raised
error to a 500 whose message is `error.message || fallback`. -/
def GET (env : Env) (db : DB) : DB × Response :=
  match env.user with
  | none => (db, ⟨401, RespBody.errorMsg ("Unauthorized")⟩)
  | some u =>
    match GETtry u env db with
    | (db1, Except.ok r) => (db1, r)
    | (db1, Except.error e) =>
      (db1, ⟨500, RespBody.errorMsg (jsOrElse e.message ("Failed to get device history"))⟩)

/-- The try-block of POST.  With no resolved user, building `deviceInfo`
reads `user.id` and raises a TypeError before any backend call.  The
clear-flags update's returned error is discarded (the source never reads
it); the device insert's error is thrown; the audit insert's returned
error is also discarded, so the success response follows regardless. -/
def POSTbody (env : Env) (db : DB) : DB × Except JsErr Response :=
  match env.user with
  | none => (db, Except.error nullDerefErr)
  | some u =>
    let db1 := (sbUpdateClear u.id env.sched.updateErr db).1
    match sbInsertDevice (deviceInfoOf env u) env.sched.insertDeviceErr db1 with
    | (db2, some e) => (db2, Except.error e)
    | (db2, none) =>
      ((sbInsertLog (newDeviceLog env u) env.sched.insertLogErr db2).1,
       Except.ok ⟨200, RespBody.successDevice env.deviceId⟩)

/-- POST with its catch boundary. -/
def POST (env : Env) (db : DB) : DB × Response :=
  match POSTbody env db with
  | (db1, Except.ok r) => (db1, r)
  | (db1, Except.error e) =>
    (db1, ⟨500, RespBody.errorMsg (jsOrElse e.message ("Failed to add device"))⟩)

/-- The try-block of DELETE.  `req.json()` may throw first; with no
resolved user, building the delete query reads `user.id` and raises a
TypeError before the delete call.  The delete's error is thrown; the
audit insert's returned error is discarded. -/
def DELETEbody (env : Env) (db : DB) : DB × Except JsErr Response :=
  match env.bodyDeviceId with
  | Except.error e => (db, Except.error e)
  | Except.ok did =>
    match env.user with
    | none => (db, Except.error nullDerefErr)
    | some u =>
      match sbDelete u.id did env.sched.deleteErr db with
      | (db1, some e) => (db1, Except.error e)
      | (db1, none) =>
        ((sbInsertLog (removedLog env u did) env.sched.insertLogErr db1).1,
         Except.ok ⟨200, RespBody.successOnly⟩)

/-- DELETE with its catch boundary. -/
def DELETE (env : Env) (db : DB) : DB × Response :=
  match DELETEbody env db with
  | (db1, Except.ok r) => (db1, r)
  | (db1, Except.error e) =>
    (db1, ⟨500, RespBody.errorMsg (jsOrElse e.message ("Failed to remove device"))⟩)

/-- Failure-free schedule: every backend call succeeds. -/
def okSched : Schedule :=
  { selectErr := none, updateErr := none, insertDeviceErr := none
    insertLogErr := none, deleteErr := none }

/-- A representative authenticated request environment with a
failure-free schedule, from which concrete scenarios are built. -/
def baseEnv : Env :=
  { user := some { id := "u1" }
    userAgent := some ("Mozilla/5.0")
    xForwardedFor := some ("198.51.100.7")
    xRealIp := none
    uaResult := { browserName := some ("Chrome"), osName := some ("Windows") }
    deviceId := "dev-42"
    now := 1700000000
    bodyDeviceId := Except.ok ("dev-42")
    sched := okSched }

/-- The empty store. -/
def emptyDB : DB :=
  { device_history := [], security_logs := [], calls := [] }

/-- A pre-existing device record of user `u1`, flagged current. -/
def oldDevice : DeviceRecord :=
  { user_id := "u1"
    device_id := "old"
    device_name := "x"
    browser := none
    os := none
    ip_address := none
    is_current := true
    last_active := 1 }

/-- A store already holding one current device for user `u1`. -/
def dbOneCurrent : DB :=
  { emptyDB with device_history := [oldDevice] }

/-- Request whose clear-flags update fails at the backend. -/
def envClearFail : Env :=
  { baseEnv with sched := { okSched with updateErr := some { message := some ("clear failed") } } }

/-- Request whose audit-entry insert fails at the backend. -/
def envLogFail : Env :=
  { baseEnv with sched := { okSched with insertLogErr := some { message := some ("log failed") } } }

/-- Request whose device-record insert fails at the backend. -/
def envInsertFail : Env :=
  { baseEnv with sched := { okSched with insertDeviceErr := some { message := some ("boom") } } }

/-- Props of the ErrorBoundary component.  `children` is the nested
content as rendering it would produce it: a value, or the error it
throws.  `fallback` is the optional caller-supplied fallback node.
The content type is a parameter, since ReactNode is opaque here. -/
structure EBProps (α : Type) where
  children : Except JsErr α
  fallback : Option α

/-- State of the ErrorBoundary class: the `hasError` flag and the stored
thrown error (`undefined` in the normal state). -/
structure EBState where
  hasError : Bool
  error : Option JsErr
deriving DecidableEq

/-- The initial state: `hasError: false`, no stored error. -/
def initialState : EBState :=
  { hasError := false, error := none }

/-- `getDerivedStateFromError`: entering the errored state stores the
thrown error. -/
def getDerivedStateFromError (e : JsErr) : EBState :=
  { hasError := true, error := some e }

/-- `handleRetry`: clears the stored error and the flag, whatever the
current state. -/
def handleRetry (_s : EBState) : EBState :=
  { hasError := false, error := none }

/-- What one render pass of the boundary puts on screen. -/
inductive Rendered (α : Type) where
  | children (c : α)
  | fallback (f : α)
  | defaultPanel (msg : String)

/-- Message shown by the default panel:
`this.state.error?.message || generic`. -/
def defaultMsg (e : Option JsErr) : String :=
  jsOrElse (e.bind JsErr.message) ("An unexpected error occurred")

/-- The errored branch of `render()`: the caller-supplied fallback when
present, otherwise the default message/retry panel. -/
def erroredView {α : Type} (p : EBProps α) (e : Option JsErr) : Rendered α :=
  match p.fallback with
  | some f => Rendered.fallback f
  | none => Rendered.defaultPanel (defaultMsg e)

/-- The `render()` method: in the errored state it shows the errored
view; in the normal state it renders the children, and an error the
children throw propagates out of `render()`. -/
def render {α : Type} (p : EBProps α) (s : EBState) : Except JsErr (Rendered α) :=
  if s.hasError then Except.ok (erroredView p s.error)
  else Except.map Rendered.children p.children

/-- One render pass with React's boundary mechanics: if `render` throws,
`getDerivedStateFromError` runs and the boundary re-renders in the new
state (which takes the errored branch, so nothing propagates further). -/
def boundaryStep {α : Type} (p : EBProps α) (s : EBState) : EBState × Rendered α :=
  match render p s with
  | Except.ok r => (s, r)
  | Except.error e =>
    let s1 := getDerivedStateFromError e
    (s1, erroredView p s1.error)

/-- `withErrorBoundary(Component, fallback)`: the returned component
renders an ErrorBoundary whose fallback is the supplied one and whose
children are `Component` rendered with exactly the given props
(`<Component {...props} />`). -/
def withErrorBoundary {P α : Type} (C : P → Except JsErr α) (fb : Option α) :
    P → EBProps α :=
  fun props => { children := C props, fallback := fb }

theorem filter_idem {α : Type} (p : α → Bool) (l : List α) :
    (l.filter p).filter p = l.filter p := by
  induction l with
  | nil => rfl
  | cons x xs ih =>
    cases h : p x <;> simp [List.filter_cons, h, ih]

theorem POST_success_shape (env : Env) (db : DB) (u : User)
    (hu : env.user = some u) (hup : env.sched.updateErr = none)
    (hi : env.sched.insertDeviceErr = none) (hl : env.sched.insertLogErr = none) :
    POST env db =
      ({ device_history := db.device_history.map (clearFor u.id) ++ [deviceInfoOf env u]
         security_logs := db.security_logs ++ [newDeviceLog env u]
         calls := db.calls ++ [DbCall.updateClear u.id,
                               DbCall.insertDevice (deviceInfoOf env u),
                               DbCall.insertLog (newDeviceLog env u)] },
       ⟨200, RespBody.successDevice env.deviceId⟩) := by
  simp [POST, POSTbody, sbUpdateClear, sbInsertDevice, sbInsertLog, hu, hup, hi, hl]

theorem DELETE_success_shape (env : Env) (db : DB) (u : User) (did : String)
    (hu : env.user = some u) (hb : env.bodyDeviceId = Except.ok did)
    (hd : env.sched.deleteErr = none) (hl : env.sched.insertLogErr = none) :
    DELETE env db =
      ({ device_history := db.device_history.filter (keepAfterDelete u.id did)
         security_logs := db.security_logs ++ [removedLog env u did]
         calls := db.calls ++ [DbCall.deleteDevice u.id did,
                               DbCall.insertLog (removedLog env u did)] },
       ⟨200, RespBody.successOnly⟩) := by
  simp [DELETE, DELETEbody, sbDelete, sbInsertLog, hu, hb, hd, hl]

/-- C7: a List request with no resolved user is answered 401 with an
error body, and no backend call is issued: the store, its call trace
included, is untouched. -/
theorem c7_unauth_list (env : Env) (db : DB) (hu : env.user = none) :
    (GET env db).2.status = 401 ∧
    (GET env db).2.body = RespBody.errorMsg ("Unauthorized") ∧
    (GET env db).1 = db := by
  simp [GET, hu]

theorem c7_unauth_list_witness :
    (GET { baseEnv with user := none } emptyDB).2.status = 401 ∧
    (GET { baseEnv with user := none } emptyDB).2.body = RespBody.errorMsg ("Unauthorized") ∧
    (GET { baseEnv with user := none } emptyDB).1 = emptyDB :=
  c7_unauth_list { baseEnv with user := none } emptyDB rfl

/-- C3: when the auth gate supplies no resolved user, Register reads
`.id` off the absent user and raises a TypeError before any backend
call; the catch converts it to a 500, never a 401.  Remove behaves
identically once the request body has parsed, and still answers 500
rather than 401 when it has not. -/
theorem c3_missing_user_fault (env : Env) (db : DB) (hu : env.user = none) :
    (POSTbody env db = (db, Except.error nullDerefErr) ∧
     (POST env db).2 = ⟨500, RespBody.errorMsg ("Cannot read properties of null")⟩ ∧
     (POST env db).2.status ≠ 401) ∧
    ((DELETE env db).2.status = 500 ∧ (DELETE env db).2.status ≠ 401 ∧
     (∀ did, env.bodyDeviceId = Except.ok did →
        DELETEbody env db = (db, Except.error nullDerefErr))) := by
  refine ⟨⟨by simp [POSTbody, hu], by simp [POST, POSTbody, hu, nullDerefErr, jsOrElse], ?_⟩, ?_⟩
  · simp [POST, POSTbody, hu]
  · cases hb : env.bodyDeviceId with
    | error e =>
      refine ⟨by simp [DELETE, DELETEbody, hb], by simp [DELETE, DELETEbody, hb], ?_⟩
      intro did h
      exact absurd h (by simp)
    | ok did0 =>
      refine ⟨by simp [DELETE, DELETEbody, hb, hu], by simp [DELETE, DELETEbody, hb, hu], ?_⟩
      intro did h
      simp [DELETEbody, hb, hu]

theorem c3_missing_user_fault_witness :
    POSTbody { baseEnv with user := none } emptyDB = (emptyDB, Except.error nullDerefErr) ∧
    (POST { baseEnv with user := none } emptyDB).2 =
      ⟨500, RespBody.errorMsg ("Cannot read properties of null")⟩ ∧
    (DELETE { baseEnv with user := none } emptyDB).2.status = 500 :=
  ⟨(c3_missing_user_fault { baseEnv with user := none } emptyDB rfl).1.1,
   (c3_missing_user_fault { baseEnv with user := none } emptyDB rfl).1.2.1,
   (c3_missing_user_fault { baseEnv with user := none } emptyDB rfl).2.1⟩

/-- C4: each handler wraps its work in a catch that converts any raised
failure (a malformed Remove body included) into a JSON error body with
status 500 whose message is the underlying error's message or, when that
is absent or empty, a fixed fallback string; the handlers are total
functions of the request, so no failure propagates past them. -/
theorem c4_catch_boundary (env : Env) (db : DB) :
    (∀ u db1 e, env.user = some u → GETtry u env db = (db1, Except.error e) →
      GET env db =
        (db1, ⟨500, RespBody.errorMsg (jsOrElse e.message ("Failed to get device history"))⟩)) ∧
    (∀ db1 e, POSTbody env db = (db1, Except.error e) →
      POST env db =
        (db1, ⟨500, RespBody.errorMsg (jsOrElse e.message ("Failed to add device"))⟩)) ∧
    (∀ db1 e, DELETEbody env db = (db1, Except.error e) →
      DELETE env db =
        (db1, ⟨500, RespBody.errorMsg (jsOrElse e.message ("Failed to remove device"))⟩)) ∧
    (∀ e, env.bodyDeviceId = Except.error e →
      DELETE env db =
        (db, ⟨500, RespBody.errorMsg (jsOrElse e.message ("Failed to remove device"))⟩)) := by
  refine ⟨?_, ?_, ?_, ?_⟩
  · intro u db1 e hu h
    simp [GET, hu, h]
  · intro db1 e h
    simp [POST, h]
  · intro db1 e h
    simp [DELETE, h]
  · intro e h
    simp [DELETE, DELETEbody, h]

theorem c4_catch_boundary_witness :
    DELETE { baseEnv with bodyDeviceId := Except.error { message := some ("Unexpected token") } }
        emptyDB =
      (emptyDB, ⟨500, RespBody.errorMsg (jsOrElse (some ("Unexpected token")) ("Failed to remove device"))⟩) ∧
    POST { baseEnv with user := none } emptyDB =
      (emptyDB, ⟨500, RespBody.errorMsg (jsOrElse nullDerefErr.message ("Failed to add device"))⟩) :=
  ⟨(c4_catch_boundary { baseEnv with bodyDeviceId := Except.error { message := some ("Unexpected token") } }
      emptyDB).2.2.2 { message := some ("Unexpected token") } rfl,
   (c4_catch_boundary { baseEnv with user := none } emptyDB).2.1 emptyDB nullDerefErr rfl⟩

/-- C2 counterexample: when the clear-flags update fails, the device
insert is still executed and the handler answers 200 rather than 500;
when the audit insert fails, the handler likewise still answers 200. -/
theorem c2_counterexample :
    ((POST envClearFail emptyDB).2.status = 200 ∧
     ¬((POST envClearFail emptyDB).2.status = 500) ∧
     DbCall.insertDevice (deviceInfoOf envClearFail { id := "u1" }) ∈
       (POST envClearFail emptyDB).1.calls) ∧
    ((POST envLogFail emptyDB).2.status = 200 ∧
     ¬((POST envLogFail emptyDB).2.status = 500)) := by
  decide

/-- C2 (amended): only a failure of the device-record insert aborts the
remaining work — the audit insert is then not executed — and surfaces as
a 500 carrying the underlying message; a failure of the clear-flags
update or of the audit insert is ignored, the subsequent steps still
run, and the handler still answers success. -/
theorem c2_amended_persistence_failures (env : Env) (db : DB) (u : User)
    (hu : env.user = some u) :
    (∀ e, env.sched.insertDeviceErr = some e →
      (POST env db).2 = ⟨500, RespBody.errorMsg (jsOrElse e.message ("Failed to add device"))⟩ ∧
      (POST env db).1.security_logs = db.security_logs ∧
      (POST env db).1.calls =
        db.calls ++ [DbCall.updateClear u.id, DbCall.insertDevice (deviceInfoOf env u)]) ∧
    (env.sched.insertDeviceErr = none →
      (POST env db).2 = ⟨200, RespBody.successDevice env.deviceId⟩ ∧
      DbCall.insertDevice (deviceInfoOf env u) ∈ (POST env db).1.calls ∧
      DbCall.insertLog (newDeviceLog env u) ∈ (POST env db).1.calls) := by
  constructor
  · intro e he
    cases hup : env.sched.updateErr <;>
      simp [POST, POSTbody, sbUpdateClear, sbInsertDevice, hu, he, hup]
  · intro hi
    cases hup : env.sched.updateErr <;> cases hl : env.sched.insertLogErr <;>
      simp [POST, POSTbody, sbUpdateClear, sbInsertDevice, sbInsertLog, hu, hi, hup, hl]

theorem c2_amended_persistence_failures_witness :
    ((POST envInsertFail emptyDB).2 =
      ⟨500, RespBody.errorMsg (jsOrElse (some ("boom")) ("Failed to add device"))⟩) ∧
    (POST baseEnv emptyDB).2 = ⟨200, RespBody.successDevice baseEnv.deviceId⟩ :=
  ⟨((c2_amended_persistence_failures envInsertFail emptyDB { id := "u1" } rfl).1
      { message := some ("boom") } rfl).1,
   ((c2_amended_persistence_failures baseEnv emptyDB { id := "u1" } rfl).2 rfl).1⟩

/-- C1 counterexample: starting from a store holding one current device
for the user, a Register call whose clear-flags update fails still
answers 200, yet afterwards two of the user's records carry
`is_current = true`. -/
theorem c1_counterexample :
    (POST envClearFail dbOneCurrent).2.status = 200 ∧
    ((POST envClearFail dbOneCurrent).1.device_history.filter
        (fun r => decide (r.user_id = "u1") && r.is_current)).length = 2 := by
  decide

/-- C1 (amended): for every Register call that answers success and whose
clear-flags update did not fail, the new record is stored with
`is_current = true` and it is the only record of that user carrying the
flag: any record of the user still flagged current is the new one. -/
theorem c1_amended_current_invariant (env : Env) (db : DB) (u : User)
    (hu : env.user = some u) (hup : env.sched.updateErr = none)
    (hi : env.sched.insertDeviceErr = none) :
    (POST env db).2.status = 200 ∧
    deviceInfoOf env u ∈ (POST env db).1.device_history ∧
    (deviceInfoOf env u).is_current = true ∧
    (∀ r ∈ (POST env db).1.device_history,
      r.user_id = u.id → r.is_current = true → r = deviceInfoOf env u) := by
  have hdh : (POST env db).1.device_history =
      db.device_history.map (clearFor u.id) ++ [deviceInfoOf env u] := by
    cases hl : env.sched.insertLogErr <;>
      simp [POST, POSTbody, sbUpdateClear, sbInsertDevice, sbInsertLog, hu, hup, hi, hl]
  have hst : (POST env db).2.status = 200 := by
    cases hl : env.sched.insertLogErr <;>
      simp [POST, POSTbody, sbUpdateClear, sbInsertDevice, sbInsertLog, hu, hup, hi, hl]
  refine ⟨hst, ?_, rfl, ?_⟩
  · rw [hdh]
    exact List.mem_append_right _ (List.mem_singleton.mpr rfl)
  · intro r hr hru hrc
    rw [hdh] at hr
    rcases List.mem_append.1 hr with h | h
    · rcases List.mem_map.1 h with ⟨r0, _, rfl⟩
      unfold clearFor at hru hrc
      by_cases h0 : r0.user_id = u.id
      · rw [if_pos h0] at hrc
        exact absurd hrc (by simp)
      · rw [if_neg h0] at hru
        exact absurd hru h0
    · exact List.mem_singleton.1 h

theorem c1_amended_current_invariant_witness :
    (POST baseEnv emptyDB).2.status = 200 ∧
    deviceInfoOf baseEnv { id := "u1" } ∈ (POST baseEnv emptyDB).1.device_history ∧
    (deviceInfoOf baseEnv { id := "u1" }).is_current = true :=
  ⟨(c1_amended_current_invariant baseEnv emptyDB { id := "u1" } rfl rfl rfl).1,
   (c1_amended_current_invariant baseEnv emptyDB { id := "u1" } rfl rfl rfl).2.1,
   (c1_amended_current_invariant baseEnv emptyDB { id := "u1" } rfl rfl rfl).2.2.1⟩

/-- C5 counterexample: a Register call whose audit insert fails still
answers success carrying the new device identifier, yet no audit entry
at all is created. -/
theorem c5_counterexample :
    (POST envLogFail emptyDB).2 = ⟨200, RespBody.successDevice ("dev-42")⟩ ∧
    (POST envLogFail emptyDB).1.security_logs = [] := by
  decide

/-- C5 (amended): for every Register call that answers success and whose
audit insert did not fail, exactly one audit entry is appended, its type
is `new_device_added`, and the device identifier in its details equals
the `deviceId` returned in the success response. -/
theorem c5_amended_audit_entry (env : Env) (db : DB) (u : User)
    (hu : env.user = some u) (hi : env.sched.insertDeviceErr = none)
    (hl : env.sched.insertLogErr = none) :
    (POST env db).2 = ⟨200, RespBody.successDevice env.deviceId⟩ ∧
    (POST env db).1.security_logs = db.security_logs ++ [newDeviceLog env u] ∧
    (newDeviceLog env u).type = "new_device_added" ∧
    (newDeviceLog env u).details_device_id = env.deviceId := by
  refine ⟨?_, ?_, rfl, rfl⟩ <;>
    cases hup : env.sched.updateErr <;>
      simp [POST, POSTbody, sbUpdateClear, sbInsertDevice, sbInsertLog, hu, hi, hl, hup]

theorem c5_amended_audit_entry_witness :
    (POST baseEnv emptyDB).2 = ⟨200, RespBody.successDevice baseEnv.deviceId⟩ ∧
    (POST baseEnv emptyDB).1.security_logs =
      emptyDB.security_logs ++ [newDeviceLog baseEnv { id := "u1" }] :=
  ⟨(c5_amended_audit_entry baseEnv emptyDB { id := "u1" } rfl rfl rfl).1,
   (c5_amended_audit_entry baseEnv emptyDB { id := "u1" } rfl rfl rfl).2.1⟩

/-- C6: two successive Remove calls for the same device identifier, with
no backend call failing, both answer success; the second call removes no
row (the table is unchanged by it), and each call appends one
`device_removed` audit entry — two entries in total — no matter whether
a matching device record ever existed. -/
theorem c6_remove_idempotent (env1 env2 : Env) (db : DB) (u : User) (did : String)
    (h1u : env1.user = some u) (h1b : env1.bodyDeviceId = Except.ok did)
    (h1d : env1.sched.deleteErr = none) (h1l : env1.sched.insertLogErr = none)
    (h2u : env2.user = some u) (h2b : env2.bodyDeviceId = Except.ok did)
    (h2d : env2.sched.deleteErr = none) (h2l : env2.sched.insertLogErr = none) :
    (DELETE env1 db).2 = ⟨200, RespBody.successOnly⟩ ∧
    (DELETE env2 (DELETE env1 db).1).2 = ⟨200, RespBody.successOnly⟩ ∧
    (DELETE env2 (DELETE env1 db).1).1.device_history = (DELETE env1 db).1.device_history ∧
    (DELETE env2 (DELETE env1 db).1).1.security_logs =
      db.security_logs ++ [removedLog env1 u did, removedLog env2 u did] ∧
    (removedLog env1 u did).type = "device_removed" ∧
    (removedLog env2 u did).type = "device_removed" := by
  rw [DELETE_success_shape env1 db u did h1u h1b h1d h1l]
  rw [DELETE_success_shape env2 _ u did h2u h2b h2d h2l]
  refine ⟨rfl, rfl, ?_, ?_, rfl, rfl⟩
  · simp [filter_idem]
  · simp

theorem c6_remove_idempotent_witness :
    (DELETE baseEnv emptyDB).2 = ⟨200, RespBody.successOnly⟩ ∧
    (DELETE baseEnv (DELETE baseEnv emptyDB).1).2 = ⟨200, RespBody.successOnly⟩ ∧
    (DELETE baseEnv (DELETE baseEnv emptyDB).1).1.device_history =
      (DELETE baseEnv emptyDB).1.device_history ∧
    (DELETE baseEnv (DELETE baseEnv emptyDB).1).1.security_logs =
      emptyDB.security_logs ++
        [removedLog baseEnv { id := "u1" } ("dev-42"),
         removedLog baseEnv { id := "u1" } ("dev-42")] :=
  ⟨(c6_remove_idempotent baseEnv baseEnv emptyDB { id := "u1" } ("dev-42")
      rfl rfl rfl rfl rfl rfl rfl rfl).1,
   (c6_remove_idempotent baseEnv baseEnv emptyDB { id := "u1" } ("dev-42")
      rfl rfl rfl rfl rfl rfl rfl rfl).2.1,
   (c6_remove_idempotent baseEnv baseEnv emptyDB { id := "u1" } ("dev-42")
      rfl rfl rfl rfl rfl rfl rfl rfl).2.2.1,
   (c6_remove_idempotent baseEnv baseEnv emptyDB { id := "u1" } ("dev-42")
      rfl rfl rfl rfl rfl rfl rfl rfl).2.2.2.1⟩

/-- C9: a Register call for which the user-agent parser yields neither a
browser name nor an OS name still answers success, and the stored record
carries the literal device name "undefined on undefined" produced by
interpolating the two undefined names into the template. -/
theorem c9_undefined_device_name (env : Env) (db : DB) (u : User)
    (hu : env.user = some u) (hbn : env.uaResult.browserName = none)
    (hos : env.uaResult.osName = none) (hi : env.sched.insertDeviceErr = none) :
    (POST env db).2 = ⟨200, RespBody.successDevice env.deviceId⟩ ∧
    (deviceInfoOf env u).device_name = "undefined on undefined" ∧
    deviceInfoOf env u ∈ (POST env db).1.device_history := by
  refine ⟨?_, ?_, ?_⟩
  · cases hup : env.sched.updateErr <;> cases hl : env.sched.insertLogErr <;>
      simp [POST, POSTbody, sbUpdateClear, sbInsertDevice, sbInsertLog, hu, hi, hup, hl]
  · simp [deviceInfoOf, jsShow, hbn, hos]
  · cases hup : env.sched.updateErr <;> cases hl : env.sched.insertLogErr <;>
      simp [POST, POSTbody, sbUpdateClear, sbInsertDevice, sbInsertLog, hu, hi, hup, hl]

theorem c9_undefined_device_name_witness :
    (POST { baseEnv with uaResult := { browserName := none, osName := none } }
        emptyDB).2 =
      ⟨200, RespBody.successDevice baseEnv.deviceId⟩ ∧
    (deviceInfoOf { baseEnv with uaResult := { browserName := none, osName := none } }
        { id := "u1" }).device_name = "undefined on undefined" :=
  ⟨(c9_undefined_device_name
      { baseEnv with uaResult := { browserName := none, osName := none } }
      emptyDB { id := "u1" } rfl rfl rfl rfl).1,
   (c9_undefined_device_name
      { baseEnv with uaResult := { browserName := none, osName := none } }
      emptyDB { id := "u1" } rfl rfl rfl rfl).2.1⟩

/-- C8: the boundary is a two-state machine.  In the normal state it
renders its children; if they throw, it moves to the errored state
storing the thrown error and renders the caller-supplied fallback when
one was given, otherwise the default message panel — never propagating
the exception (`boundaryStep` is total).  In the errored state it keeps
rendering the errored view.  Retry clears the stored error, returns to
the normal state, and the next render attempts the children again. -/
theorem c8_boundary_machine {α : Type} (p : EBProps α) (s : EBState) (c : α) (e : JsErr) :
    (s.hasError = false → p.children = Except.ok c →
      boundaryStep p s = (s, Rendered.children c)) ∧
    (s.hasError = false → p.children = Except.error e →
      (boundaryStep p s).1 = { hasError := true, error := some e } ∧
      (∀ f, p.fallback = some f → (boundaryStep p s).2 = Rendered.fallback f) ∧
      (p.fallback = none →
        (boundaryStep p s).2 = Rendered.defaultPanel (defaultMsg (some e)))) ∧
    (s.hasError = true → boundaryStep p s = (s, erroredView p s.error)) ∧
    (handleRetry s = { hasError := false, error := none } ∧
     render p (handleRetry s) = Except.map Rendered.children p.children) := by
  refine ⟨?_, ?_, ?_, rfl, ?_⟩
  · intro hs hc
    simp [boundaryStep, render, Except.map, hs, hc]
  · intro hs hc
    refine ⟨?_, ?_, ?_⟩
    · simp [boundaryStep, render, Except.map, hs, hc, getDerivedStateFromError]
    · intro f hf
      simp [boundaryStep, render, Except.map, hs, hc, getDerivedStateFromError, erroredView, hf]
    · intro hf
      simp [boundaryStep, render, Except.map, hs, hc, getDerivedStateFromError, erroredView, hf]
  · intro hs
    simp [boundaryStep, render, hs]
  · simp [render, handleRetry]

theorem c8_boundary_machine_witness :
    boundaryStep { children := Except.ok 7, fallback := none } initialState =
      (initialState, Rendered.children 7) ∧
    (boundaryStep { children := Except.error { message := some ("boom") }, fallback := some 9 }
        initialState).1 =
      { hasError := true, error := some { message := some ("boom") } } ∧
    (boundaryStep { children := Except.error { message := some ("boom") }, fallback := some 9 }
        initialState).2 = Rendered.fallback 9 ∧
    boundaryStep { children := Except.error { message := some ("boom") }, fallback := (none : Option Nat) }
        { hasError := true, error := some { message := some ("boom") } } =
      ({ hasError := true, error := some { message := some ("boom") } },
       erroredView { children := Except.error { message := some ("boom") }, fallback := none }
         (some { message := some ("boom") })) ∧
    handleRetry { hasError := true, error := some { message := some ("boom") } } =
      { hasError := false, error := none } :=
  ⟨(c8_boundary_machine { children := Except.ok 7, fallback := none } initialState 7
      { message := some ("boom") }).1 rfl rfl,
   ((c8_boundary_machine { children := Except.error { message := some ("boom") }, fallback := some 9 }
      initialState 7 { message := some ("boom") }).2.1 rfl rfl).1,
   (((c8_boundary_machine { children := Except.error { message := some ("boom") }, fallback := some 9 }
      initialState 7 { message := some ("boom") }).2.1 rfl rfl).2.1 9 rfl),
   ((c8_boundary_machine
      { children := Except.error { message := some ("boom") }, fallback := (none : Option Nat) }
      { hasError := true, error := some { message := some ("boom") } } 7
      { message := some ("boom") }).2.2.1 rfl),
   ((c8_boundary_machine { children := Except.ok 7, fallback := none }
      { hasError := true, error := some { message := some ("boom") } } 7
      { message := some ("boom") }).2.2.2.1)⟩

/-- C10: the component returned by `withErrorBoundary(Component, fallback)`
renders, for any props, an ErrorBoundary whose fallback is exactly the
supplied value and whose children are `Component` applied to exactly the
given props; when the wrapped component renders without throwing, a
mounted boundary shows precisely that output. -/
theorem c10_with_error_boundary {P α : Type} (C : P → Except JsErr α) (fb : Option α) (p : P) :
    (withErrorBoundary C fb p).children = C p ∧
    (withErrorBoundary C fb p).fallback = fb ∧
    (∀ c, C p = Except.ok c →
      boundaryStep (withErrorBoundary C fb p) initialState = (initialState, Rendered.children c)) ∧
    (∀ e, C p = Except.error e →
      (boundaryStep (withErrorBoundary C fb p) initialState).1 =
        { hasError := true, error := some e }) := by
  refine ⟨rfl, rfl, ?_, ?_⟩
  · intro c hc
    simp [boundaryStep, render, Except.map, initialState, withErrorBoundary, hc]
  · intro e he
    simp [boundaryStep, render, Except.map, initialState, withErrorBoundary, he, getDerivedStateFromError]

theorem c10_with_error_boundary_witness :
    (withErrorBoundary (fun n : Nat => Except.ok (n + 1)) (some 0) 41).children = Except.ok 42 ∧
    (withErrorBoundary (fun n : Nat => Except.ok (n + 1)) (some 0) 41).fallback = some 0 ∧
    boundaryStep (withErrorBoundary (fun n : Nat => Except.ok (n + 1)) (some 0) 41) initialState =
      (initialState, Rendered.children 42) :=
  ⟨(c10_with_error_boundary (fun n : Nat => Except.ok (n + 1)) (some 0) 41).1,
   (c10_with_error_boundary (fun n : Nat => Except.ok (n + 1)) (some 0) 41).2.1,
   (c10_with_error_boundary (fun n : Nat => Except.ok (n + 1)) (some 0) 41).2.2.1 42 rfl⟩

end DeviceApp
